import Mathlib

/-!
Verification of the component-installer script of the repository
(`scripts` helper invoked as `pnpm ui:add <component-name>`).

The script is a thin CLI passthrough:

* it reads `process.argv[2]` as the component name;
* if that value is falsy (missing argument or empty string) it prints a
  usage error to stderr, a usage hint and an example to stdout, and calls
  `process.exit(1)` without spawning anything;
* otherwise it computes `projectRoot = path.join(__dirname, "..")`, prints
  two progress lines, and spawns
  `pnpm dlx shadcn@canary add <name>` with `cwd = projectRoot`,
  `stdio: "inherit"` and `shell: true`;
* on the child's `error` event it prints the failure reason to stderr and
  calls `process.exit(1)`;
* on the child's `exit` event with code `0` it prints a success line and the
  process later exits normally with code 0; with any other code value it
  prints a failure line interpolating the code and calls `process.exit(code)`.

The embedding below is a pure function from the script directory, the
argument vector and the (externally determined) child outcome to the trace
of observable events (prints to stdout/stderr and spawn calls) together with
the final process exit code.  Node-specific semantics that the script relies
on are modelled explicitly: `path.join` segment normalisation, the falsiness
of `undefined` and `""`, the `null` exit code delivered to the `exit`
handler when the child is killed by a signal, and `process.exit(null)`
leaving the exit code unset (so the process exits 0).
-/

namespace Installer

/-! ## Path model (`path.join`, POSIX semantics) -/

/-- Split a character list at every occurrence of the separator, keeping
empty segments (the character-level core of splitting a path on `/`). -/
def splitCharAux (sep : Char) : List Char → List Char → List String
  | [], acc => [String.mk acc.reverse]
  | c :: cs, acc =>
    if c = sep then String.mk acc.reverse :: splitCharAux sep cs []
    else splitCharAux sep cs (c :: acc)

/-- Split a string at every occurrence of a separator character. -/
def splitChar (sep : Char) (s : String) : List String :=
  splitCharAux sep s.data []

/-- The meaningful segments of a POSIX path: split on `/`, dropping empty
segments and `.` segments (exactly what Node's normalisation keeps for
further `..` resolution). -/
def segsOf (p : String) : List String :=
  (splitChar '/' p).filter (fun s => s ≠ "" ∧ s ≠ ".")

/-- Whether a POSIX path is absolute: its first character is `/`. -/
def isAbsolute (p : String) : Bool :=
  match p.data with
  | [] => false
  | c :: _ => c = '/'

/-- Resolve `..` segments against the preceding segments, as Node's path
normalisation does: a `..` pops the previous real segment; at the root of an
absolute path a `..` is dropped; in a relative path leading `..` segments are
kept.  The accumulator holds the already-resolved segments in reverse. -/
def resolveSegs (abs : Bool) : List String → List String → List String
  | acc, [] => acc.reverse
  | acc, seg :: rest =>
    if seg = ".." then
      match acc with
      | [] => if abs then resolveSegs abs [] rest else resolveSegs abs [".."] rest
      | top :: accRest =>
        if top = ".." then resolveSegs abs (seg :: top :: accRest) rest
        else resolveSegs abs accRest rest
    else resolveSegs abs (seg :: acc) rest

/-- Render a resolved segment list back into a path string, the way Node's
normalisation does (`/` for an emptied absolute path, `.` for an emptied
relative one). -/
def renderPath (abs : Bool) (segs : List String) : String :=
  let body := String.intercalate "/" segs
  if abs then (if body = "" then "/" else "/" ++ body)
  else (if body = "" then "." else body)

/-- `path.join(a, b)` (POSIX): concatenate the two paths and normalise.
Joining then normalising is equivalent to normalising the concatenation of
the two paths' segment lists; absoluteness comes from the first non-empty
argument. -/
def pathJoin (a b : String) : String :=
  let abs := if a = "" then isAbsolute b else isAbsolute a
  renderPath abs (resolveSegs abs [] (segsOf a ++ segsOf b))

/-- The parent of a directory, as the spec phrases "the project root (the
parent of the directory containing the script)": the path with its last
segment removed. -/
def parentDir (p : String) : String :=
  renderPath (isAbsolute p) (segsOf p).dropLast

/-! ## Process model -/

/-- Outcome of the delegated child process, determined by the environment:
the spawn can fail to launch (the `error` event fires with a reason), or the
child runs and the `exit` event fires, either with a numeric exit code or —
when the child was terminated by a signal, without a normal exit code — with
`null` and the signal name. -/
inductive ChildOutcome where
  | launchError (message : String)
  | exited (code : Int)
  | signaled (signal : String)
deriving DecidableEq, Repr

/-- An observable event of one installer run: a line printed to stdout, a
line printed to stderr, or the spawning of a delegated subprocess. -/
inductive Event where
  | printOut (line : String)
  | printErr (line : String)
  | spawnChild (cmd : String) (args : List String) (cwd : String)
      (stdioInherit : Bool) (shell : Bool)
deriving DecidableEq, Repr

/-- The result of one installer run: the ordered trace of observable events
and the process exit code. -/
structure RunResult where
  events : List Event
  exitCode : Int
deriving DecidableEq, Repr

/-- The lines an installer run printed to stdout, in order. -/
def stdoutLines (r : RunResult) : List String :=
  r.events.filterMap fun e =>
    match e with
    | .printOut s => some s
    | _ => none

/-- The lines an installer run printed to stderr, in order. -/
def stderrLines (r : RunResult) : List String :=
  r.events.filterMap fun e =>
    match e with
    | .printErr s => some s
    | _ => none

/-- The spawn events of an installer run, in order. -/
def spawnCalls (r : RunResult) : List Event :=
  r.events.filter fun e =>
    match e with
    | .spawnChild _ _ _ _ _ => true
    | _ => false

/-- `s` contains `sub` as a substring. -/
def strContains (s sub : String) : Prop :=
  ∃ a b, s = a ++ sub ++ b

/-! ## The installer script -/

/-- The usage path of the script (`if (!componentName) { ... }`): usage
error to stderr, usage hint and example to stdout, `process.exit(1)`,
no subprocess. -/
def usageResult : RunResult :=
  { events :=
      [ Event.printErr "❌ Error: Please specify a component name"
      , Event.printOut "Usage: npm run ui:add <component-name>"
      , Event.printOut "Example: npm run ui:add button" ]
  , exitCode := 1 }

/-- The delegated spawn constructed by the script:
`spawn("pnpm", ["dlx", "shadcn@canary", "add", componentName],
{ cwd: projectRoot, stdio: "inherit", shell: true })` with
`projectRoot = path.join(__dirname, "..")`. -/
def delegatedCall (scriptDir name : String) : Event :=
  Event.spawnChild "pnpm" ["dlx", "shadcn@canary", "add", name]
    (pathJoin scriptDir "..") true true

/-- JavaScript string interpolation of the `exit` event's code value:
a number prints in decimal, `null` prints as `"null"`. -/
def codeTemplateString : Option Int → String
  | none => "null"
  | some n => toString n

/-- Node's `process.exit` applied to the `exit` event's code value: an
integer code is used verbatim; `null` leaves the exit code unset, so the
process exits with the default code 0. -/
def nodeProcessExit : Option Int → Int
  | none => 0
  | some n => n

/-- The script's `exit`-event handler, as a function of the component name
and the code value the event delivers (`null` when the child was killed by a
signal): on `code === 0` it prints the success line and the process later
exits 0 by falling off the event loop; otherwise it prints the failure line
interpolating the code and calls `process.exit(code)`. -/
def exitHandler (name : String) (code : Option Int) : List Event × Int :=
  if code = some 0 then
    ([Event.printOut ("✅ Successfully added " ++ name ++ " component!")], 0)
  else
    ([Event.printErr ("❌ Command failed with exit code " ++ codeTemplateString code)],
      nodeProcessExit code)

/-- The delegating path of the script, once a non-falsy component name is in
hand: print the two progress lines, spawn the delegated command, then follow
the `error` handler (launch failure: reason to stderr, `process.exit(1)`) or
the `exit` handler according to the child outcome. -/
def delegateRun (scriptDir name : String) (outcome : ChildOutcome) : RunResult :=
  let projectRoot := pathJoin scriptDir ".."
  let pre : List Event :=
    [ Event.printOut ("🔧 Adding shadcn component: " ++ name)
    , Event.printOut ("📁 Working directory: " ++ projectRoot)
    , delegatedCall scriptDir name ]
  match outcome with
  | .launchError msg =>
    { events := pre ++ [Event.printErr ("❌ Error running command: " ++ msg)]
    , exitCode := 1 }
  | .exited code =>
    let h := exitHandler name (some code)
    { events := pre ++ h.1, exitCode := h.2 }
  | .signaled _ =>
    let h := exitHandler name none
    { events := pre ++ h.1, exitCode := h.2 }

/-- The whole script as a function of the script directory (`__dirname`),
the process argument vector (`process.argv`, whose entry 2 is the first
positional argument) and the child outcome.  `if (!componentName)` is taken
when `process.argv[2]` is `undefined` (fewer than three entries) or the
empty string — the only falsy string. -/
def runInstaller (scriptDir : String) (argv : List String)
    (outcome : ChildOutcome) : RunResult :=
  match argv[2]? with
  | none => usageResult
  | some name =>
    if name = "" then usageResult
    else delegateRun scriptDir name outcome

/-- One installer invocation followed by another with the same script
directory and argument vector: the installer holds no state, so each run is
a fresh evaluation on its own child outcome. -/
def runTwice (scriptDir : String) (argv : List String)
    (o₁ o₂ : ChildOutcome) : RunResult × RunResult :=
  (runInstaller scriptDir argv o₁, runInstaller scriptDir argv o₂)

/-- The phases of the spec's state machine for one run. -/
inductive Phase where
  | awaitingArgument
  | delegating
  | terminal (code : Int)
deriving DecidableEq, Repr

/-- The state-machine path taken by a run, read off its trace: every run
starts awaiting the argument, enters the delegating phase once per spawned
subprocess, and ends in the terminal phase carrying the exit code. -/
def phasesOf (r : RunResult) : List Phase :=
  Phase.awaitingArgument ::
    ((spawnCalls r).map fun _ => Phase.delegating) ++ [Phase.terminal r.exitCode]

/-! ## Path lemmas -/

theorem resolveSegs_nil (abs : Bool) (acc : List String) :
    resolveSegs abs acc [] = acc.reverse := rfl

theorem resolveSegs_append (abs : Bool) (l₁ l₂ acc : List String)
    (h : ∀ s ∈ l₁, s ≠ "..") :
    resolveSegs abs acc (l₁ ++ l₂) = resolveSegs abs (l₁.reverse ++ acc) l₂ := by
  induction l₁ generalizing acc with
  | nil => simp
  | cons a t ih =>
    have ha : a ≠ ".." := h a (by simp)
    rw [List.cons_append,
      show resolveSegs abs acc (a :: (t ++ l₂)) = resolveSegs abs (a :: acc) (t ++ l₂) by
        simp [resolveSegs, ha],
      ih (a :: acc) (fun s hs => h s (by simp [hs]))]
    simp

/-- Joining `".."` onto an absolute path whose segments are all real (no
`..` segments) drops the last segment: `path.join(dir, "..")` is the parent
of `dir`. -/
theorem pathJoin_dotdot (p : String) (habs : isAbsolute p = true)
    (hne : segsOf p ≠ []) (hdots : ∀ s ∈ segsOf p, s ≠ "..") :
    pathJoin p ".." = parentDir p := by
  have hp : p ≠ "" := by
    intro h
    rw [h] at habs
    simp [isAbsolute] at habs
  have hsegs : segsOf ".." = [".."] := by decide
  have hlast : (segsOf p).dropLast ++ [(segsOf p).getLast hne] = segsOf p :=
    List.dropLast_append_getLast hne
  have hlastne : (segsOf p).getLast hne ≠ ".." :=
    hdots _ (List.getLast_mem hne)
  simp only [pathJoin, parentDir, hsegs, if_neg hp, habs]
  congr 1
  rw [resolveSegs_append true (segsOf p) [".."] [] hdots, List.append_nil]
  conv_lhs => rw [← hlast]
  rw [List.reverse_append]
  simp [resolveSegs, hlastne]

/-! ## Run lemmas -/

theorem runInstaller_eq_delegateRun (scriptDir : String) (argv : List String)
    (outcome : ChildOutcome) (x : String)
    (hx : argv[2]? = some x) (hxne : x ≠ "") :
    runInstaller scriptDir argv outcome = delegateRun scriptDir x outcome := by
  simp [runInstaller, hx, hxne]

theorem runInstaller_eq_usage (scriptDir : String) (argv : List String)
    (outcome : ChildOutcome) (h : argv[2]? = none) :
    runInstaller scriptDir argv outcome = usageResult := by
  simp [runInstaller, h]

theorem spawnCalls_delegateRun (scriptDir name : String) (outcome : ChildOutcome) :
    spawnCalls (delegateRun scriptDir name outcome) = [delegatedCall scriptDir name] := by
  cases outcome with
  | launchError m => simp [delegateRun, spawnCalls, delegatedCall]
  | exited c =>
    by_cases hc : c = 0 <;>
      simp [delegateRun, spawnCalls, delegatedCall, exitHandler, hc]
  | signaled s => simp [delegateRun, spawnCalls, delegatedCall, exitHandler]

theorem strContains_middle (a sub b : String) : strContains (a ++ sub ++ b) sub :=
  ⟨a, b, rfl⟩

theorem strContains_right (a sub : String) : strContains (a ++ sub) sub :=
  ⟨a, "", by simp⟩

/-! ## Claims -/

/-- C1: for every invocation with one (non-empty) argument `X`, the
installer spawns exactly the delegated command; that command carries `X` as
its final argument, runs in the project root — the parent of the directory
containing the script — and inherits the parent process's standard
streams. -/
theorem c1_delegated_command (scriptDir : String) (argv : List String)
    (x : String) (outcome : ChildOutcome)
    (hx : argv[2]? = some x) (hxne : x ≠ "")
    (habs : isAbsolute scriptDir = true) (hne : segsOf scriptDir ≠ [])
    (hdots : ∀ s ∈ segsOf scriptDir, s ≠ "..") :
    spawnCalls (runInstaller scriptDir argv outcome) = [delegatedCall scriptDir x] ∧
    delegatedCall scriptDir x =
      Event.spawnChild "pnpm" ["dlx", "shadcn@canary", "add", x]
        (parentDir scriptDir) true true ∧
    ["dlx", "shadcn@canary", "add", x].getLast? = some x := by
  refine ⟨?_, ?_, rfl⟩
  · rw [runInstaller_eq_delegateRun scriptDir argv outcome x hx hxne,
      spawnCalls_delegateRun]
  · simp [delegatedCall, pathJoin_dotdot scriptDir habs hne hdots]

/-- Witness for C1 at the invocation `ui:add button` with the script living
in `/repo/scripts`. -/
theorem c1_delegated_command_witness :
    spawnCalls (runInstaller "/repo/scripts" ["node", "script", "button"]
        (ChildOutcome.exited 0)) = [delegatedCall "/repo/scripts" "button"] ∧
    delegatedCall "/repo/scripts" "button" =
      Event.spawnChild "pnpm" ["dlx", "shadcn@canary", "add", "button"]
        (parentDir "/repo/scripts") true true ∧
    ["dlx", "shadcn@canary", "add", "button"].getLast? = some "button" :=
  c1_delegated_command "/repo/scripts" ["node", "script", "button"] "button"
    (ChildOutcome.exited 0) (by decide) (by decide) (by decide) (by decide)
    (by decide)

/-- C2: for every invocation with zero arguments the installer prints the
usage error to stderr, the usage hint and the example to stdout, exits with
code 1, and spawns no subprocess. -/
theorem c2_no_argument (scriptDir : String) (argv : List String)
    (outcome : ChildOutcome) (h : argv[2]? = none) :
    (runInstaller scriptDir argv outcome).exitCode = 1 ∧
    stderrLines (runInstaller scriptDir argv outcome) =
      ["❌ Error: Please specify a component name"] ∧
    stdoutLines (runInstaller scriptDir argv outcome) =
      ["Usage: npm run ui:add <component-name>",
        "Example: npm run ui:add button"] ∧
    spawnCalls (runInstaller scriptDir argv outcome) = [] := by
  rw [runInstaller_eq_usage scriptDir argv outcome h]
  decide

/-- Witness for C2 at an invocation with no positional argument. -/
theorem c2_no_argument_witness :
    (runInstaller "/repo/scripts" ["node", "script"]
        (ChildOutcome.exited 0)).exitCode = 1 ∧
    stderrLines (runInstaller "/repo/scripts" ["node", "script"]
        (ChildOutcome.exited 0)) =
      ["❌ Error: Please specify a component name"] ∧
    stdoutLines (runInstaller "/repo/scripts" ["node", "script"]
        (ChildOutcome.exited 0)) =
      ["Usage: npm run ui:add <component-name>",
        "Example: npm run ui:add button"] ∧
    spawnCalls (runInstaller "/repo/scripts" ["node", "script"]
        (ChildOutcome.exited 0)) = [] :=
  c2_no_argument "/repo/scripts" ["node", "script"] (ChildOutcome.exited 0)
    (by decide)

/-- C3: when the delegated command exits with a non-zero code `N`, the
installer prints a failure message containing `N` and exits with code `N`. -/
theorem c3_nonzero_exit_propagated (scriptDir : String) (argv : List String)
    (x : String) (n : Int) (hx : argv[2]? = some x) (hxne : x ≠ "")
    (hn : n ≠ 0) :
    (runInstaller scriptDir argv (ChildOutcome.exited n)).exitCode = n ∧
    ("❌ Command failed with exit code " ++ toString n) ∈
      stderrLines (runInstaller scriptDir argv (ChildOutcome.exited n)) ∧
    strContains ("❌ Command failed with exit code " ++ toString n)
      (toString n) := by
  rw [runInstaller_eq_delegateRun scriptDir argv _ x hx hxne]
  refine ⟨?_, ?_, strContains_right _ _⟩
  · simp [delegateRun, exitHandler, hn, nodeProcessExit]
  · simp [delegateRun, exitHandler, hn, stderrLines, codeTemplateString,
      delegatedCall]

/-- Witness for C3 at the scenario `ui:add bogus-widget` with the delegated
tool exiting 2. -/
theorem c3_nonzero_exit_propagated_witness :
    (runInstaller "/repo/scripts" ["node", "script", "bogus-widget"]
        (ChildOutcome.exited 2)).exitCode = 2 ∧
    ("❌ Command failed with exit code " ++ toString (2 : Int)) ∈
      stderrLines (runInstaller "/repo/scripts" ["node", "script", "bogus-widget"]
        (ChildOutcome.exited 2)) ∧
    strContains ("❌ Command failed with exit code " ++ toString (2 : Int))
      (toString (2 : Int)) :=
  c3_nonzero_exit_propagated "/repo/scripts" ["node", "script", "bogus-widget"]
    "bogus-widget" 2 (by decide) (by decide) (by decide)

/-- C4: when the delegated command exits with code 0, the installer prints a
success message containing the component name and the process exits with
code 0. -/
theorem c4_success (scriptDir : String) (argv : List String) (x : String)
    (hx : argv[2]? = some x) (hxne : x ≠ "") :
    (runInstaller scriptDir argv (ChildOutcome.exited 0)).exitCode = 0 ∧
    ("✅ Successfully added " ++ x ++ " component!") ∈
      stdoutLines (runInstaller scriptDir argv (ChildOutcome.exited 0)) ∧
    strContains ("✅ Successfully added " ++ x ++ " component!") x := by
  rw [runInstaller_eq_delegateRun scriptDir argv _ x hx hxne]
  refine ⟨?_, ?_, strContains_middle _ _ _⟩
  · simp [delegateRun, exitHandler]
  · simp [delegateRun, exitHandler, stdoutLines, delegatedCall]

/-- Witness for C4 at the scenario `ui:add button` with the delegated tool
exiting 0. -/
theorem c4_success_witness :
    (runInstaller "/repo/scripts" ["node", "script", "button"]
        (ChildOutcome.exited 0)).exitCode = 0 ∧
    ("✅ Successfully added " ++ "button" ++ " component!") ∈
      stdoutLines (runInstaller "/repo/scripts" ["node", "script", "button"]
        (ChildOutcome.exited 0)) ∧
    strContains ("✅ Successfully added " ++ "button" ++ " component!")
      "button" :=
  c4_success "/repo/scripts" ["node", "script", "button"] "button"
    (by decide) (by decide)

/-- C5: when the delegated subprocess fails to launch, the installer prints
an error message containing the failure reason and exits with code 1. -/
theorem c5_launch_failure (scriptDir : String) (argv : List String)
    (x msg : String) (hx : argv[2]? = some x) (hxne : x ≠ "") :
    (runInstaller scriptDir argv (ChildOutcome.launchError msg)).exitCode = 1 ∧
    ("❌ Error running command: " ++ msg) ∈
      stderrLines (runInstaller scriptDir argv (ChildOutcome.launchError msg)) ∧
    strContains ("❌ Error running command: " ++ msg) msg := by
  rw [runInstaller_eq_delegateRun scriptDir argv _ x hx hxne]
  refine ⟨?_, ?_, strContains_right _ _⟩
  · simp [delegateRun]
  · simp [delegateRun, stderrLines, delegatedCall]

/-- Witness for C5 at a launch failure with reason `spawn pnpm ENOENT`. -/
theorem c5_launch_failure_witness :
    (runInstaller "/repo/scripts" ["node", "script", "button"]
        (ChildOutcome.launchError "spawn pnpm ENOENT")).exitCode = 1 ∧
    ("❌ Error running command: " ++ "spawn pnpm ENOENT") ∈
      stderrLines (runInstaller "/repo/scripts" ["node", "script", "button"]
        (ChildOutcome.launchError "spawn pnpm ENOENT")) ∧
    strContains ("❌ Error running command: " ++ "spawn pnpm ENOENT")
      "spawn pnpm ENOENT" :=
  c5_launch_failure "/repo/scripts" ["node", "script", "button"] "button"
    "spawn pnpm ENOENT" (by decide) (by decide)

/-- C6 counterexample: when the child is killed by a signal the `exit`
handler receives a `null` code and passes it to `process.exit`, which Node
treats as no code at all — the process exits 0, not 1 as claimed. -/
theorem c6_counterexample :
    (runInstaller "/repo/scripts" ["node", "script", "button"]
        (ChildOutcome.signaled "SIGKILL")).exitCode = 0 ∧
    (runInstaller "/repo/scripts" ["node", "script", "button"]
        (ChildOutcome.signaled "SIGKILL")).exitCode ≠ 1 := by
  decide

/-- C6 (amended): for every invocation whose delegated child is interrupted
abnormally (terminated without a normal exit code), the installer prints a
failure message interpolating the `null` code and terminates with exit code
0, because `process.exit` receives the `null` code and Node treats it as
unset. -/
theorem c6_signal_exits_zero (scriptDir : String) (argv : List String)
    (x sig : String) (hx : argv[2]? = some x) (hxne : x ≠ "") :
    (runInstaller scriptDir argv (ChildOutcome.signaled sig)).exitCode = 0 ∧
    "❌ Command failed with exit code null" ∈
      stderrLines (runInstaller scriptDir argv (ChildOutcome.signaled sig)) ∧
    strContains "❌ Command failed with exit code null" "null" := by
  rw [runInstaller_eq_delegateRun scriptDir argv _ x hx hxne]
  refine ⟨?_, ?_, ⟨"❌ Command failed with exit code ", "", by decide⟩⟩
  · simp [delegateRun, exitHandler, nodeProcessExit, codeTemplateString]
  · have h : stderrLines (delegateRun scriptDir x (ChildOutcome.signaled sig)) =
        ["❌ Command failed with exit code " ++ "null"] := by
      simp [delegateRun, exitHandler, codeTemplateString, stderrLines,
        delegatedCall]
    rw [h]
    decide

/-- Witness for C6 (amended) at a child killed by `SIGTERM`. -/
theorem c6_signal_exits_zero_witness :
    (runInstaller "/repo/scripts" ["node", "script", "button"]
        (ChildOutcome.signaled "SIGTERM")).exitCode = 0 ∧
    "❌ Command failed with exit code null" ∈
      stderrLines (runInstaller "/repo/scripts" ["node", "script", "button"]
        (ChildOutcome.signaled "SIGTERM")) ∧
    strContains "❌ Command failed with exit code null" "null" :=
  c6_signal_exits_zero "/repo/scripts" ["node", "script", "button"] "button"
    "SIGTERM" (by decide) (by decide)

/-- C7: every run spawns at most one delegated subprocess, reports at most
one failure line, and follows the state machine
`AwaitingArgument → Terminal(1)` (missing argument) or
`AwaitingArgument → Delegating → Terminal(code)` — no retries, every
failure terminal. -/
theorem c7_state_machine (scriptDir : String) (argv : List String)
    (outcome : ChildOutcome) :
    (spawnCalls (runInstaller scriptDir argv outcome)).length ≤ 1 ∧
    (stderrLines (runInstaller scriptDir argv outcome)).length ≤ 1 ∧
    (phasesOf (runInstaller scriptDir argv outcome) =
        [Phase.awaitingArgument, Phase.terminal 1] ∨
      phasesOf (runInstaller scriptDir argv outcome) =
        [Phase.awaitingArgument, Phase.delegating,
          Phase.terminal (runInstaller scriptDir argv outcome).exitCode]) := by
  rcases hx : argv[2]? with _ | name
  · rw [runInstaller_eq_usage scriptDir argv outcome hx]
    exact ⟨by decide, by decide, Or.inl (by decide)⟩
  · by_cases hname : name = ""
    · subst hname
      have h : runInstaller scriptDir argv outcome = usageResult := by
        simp [runInstaller, hx]
      rw [h]
      exact ⟨by decide, by decide, Or.inl (by decide)⟩
    · rw [runInstaller_eq_delegateRun scriptDir argv outcome name hx hname]
      refine ⟨?_, ?_, Or.inr ?_⟩
      · rw [spawnCalls_delegateRun]
        simp
      · cases outcome with
        | launchError m => simp [delegateRun, stderrLines, delegatedCall]
        | exited c =>
          by_cases hc : c = 0 <;>
            simp [delegateRun, stderrLines, delegatedCall, exitHandler, hc]
        | signaled s =>
          simp [delegateRun, stderrLines, delegatedCall, exitHandler]
      · rw [phasesOf, spawnCalls_delegateRun]
        simp

/-- C8: the installer is stateless and deterministic — two invocations with
the same argument and the same delegated-command outcome produce identical
results (same trace, hence same messages and exit code), the second run is
unaffected by the first run's outcome, and each run issues its own single
delegated invocation. -/
theorem c8_stateless_deterministic (scriptDir : String) (argv : List String)
    (x : String) (o o' : ChildOutcome)
    (hx : argv[2]? = some x) (hxne : x ≠ "") :
    (runTwice scriptDir argv o o).1 = (runTwice scriptDir argv o o).2 ∧
    (runTwice scriptDir argv o' o).2 = runInstaller scriptDir argv o ∧
    spawnCalls (runTwice scriptDir argv o o).1 = [delegatedCall scriptDir x] ∧
    spawnCalls (runTwice scriptDir argv o o).2 = [delegatedCall scriptDir x] := by
  refine ⟨rfl, rfl, ?_, ?_⟩ <;>
    · show spawnCalls (runInstaller scriptDir argv o) = _
      rw [runInstaller_eq_delegateRun scriptDir argv o x hx hxne,
        spawnCalls_delegateRun]

/-- Witness for C8 at two `ui:add button` runs whose children both exit 0,
with an alternative first-run outcome exiting 7. -/
theorem c8_stateless_deterministic_witness :
    (runTwice "/repo/scripts" ["node", "script", "button"]
        (ChildOutcome.exited 0) (ChildOutcome.exited 0)).1 =
      (runTwice "/repo/scripts" ["node", "script", "button"]
        (ChildOutcome.exited 0) (ChildOutcome.exited 0)).2 ∧
    (runTwice "/repo/scripts" ["node", "script", "button"]
        (ChildOutcome.exited 7) (ChildOutcome.exited 0)).2 =
      runInstaller "/repo/scripts" ["node", "script", "button"]
        (ChildOutcome.exited 0) ∧
    spawnCalls (runTwice "/repo/scripts" ["node", "script", "button"]
        (ChildOutcome.exited 0) (ChildOutcome.exited 0)).1 =
      [delegatedCall "/repo/scripts" "button"] ∧
    spawnCalls (runTwice "/repo/scripts" ["node", "script", "button"]
        (ChildOutcome.exited 0) (ChildOutcome.exited 0)).2 =
      [delegatedCall "/repo/scripts" "button"] :=
  c8_stateless_deterministic "/repo/scripts" ["node", "script", "button"]
    "button" (ChildOutcome.exited 0) (ChildOutcome.exited 7)
    (by decide) (by decide)

/-- C9: an invocation whose first positional argument is the empty string is
treated exactly like an invocation with no argument — usage guidance is
printed, the exit code is 1, and no subprocess is spawned. -/
theorem c9_empty_argument (scriptDir : String) (argv : List String)
    (outcome : ChildOutcome) (h : argv[2]? = some "") :
    runInstaller scriptDir argv outcome = runInstaller scriptDir [] outcome ∧
    (runInstaller scriptDir argv outcome).exitCode = 1 ∧
    spawnCalls (runInstaller scriptDir argv outcome) = [] ∧
    stdoutLines (runInstaller scriptDir argv outcome) =
      ["Usage: npm run ui:add <component-name>",
        "Example: npm run ui:add button"] := by
  have h1 : runInstaller scriptDir argv outcome = usageResult := by
    simp [runInstaller, h]
  have h2 : runInstaller scriptDir [] outcome = usageResult := by
    simp [runInstaller]
  rw [h1, h2]
  exact ⟨rfl, by decide, by decide, by decide⟩

/-- Witness for C9 at the invocation whose first positional argument is the
empty string. -/
theorem c9_empty_argument_witness :
    runInstaller "/repo/scripts" ["node", "script", ""]
        (ChildOutcome.exited 0) =
      runInstaller "/repo/scripts" [] (ChildOutcome.exited 0) ∧
    (runInstaller "/repo/scripts" ["node", "script", ""]
        (ChildOutcome.exited 0)).exitCode = 1 ∧
    spawnCalls (runInstaller "/repo/scripts" ["node", "script", ""]
        (ChildOutcome.exited 0)) = [] ∧
    stdoutLines (runInstaller "/repo/scripts" ["node", "script", ""]
        (ChildOutcome.exited 0)) =
      ["Usage: npm run ui:add <component-name>",
        "Example: npm run ui:add button"] :=
  c9_empty_argument "/repo/scripts" ["node", "script", ""]
    (ChildOutcome.exited 0) (by decide)

/-- C10: arguments beyond the first positional argument are ignored — two
invocations that agree on `process.argv[2]` produce identical results
(same delegated command, same messages, same exit code). -/
theorem c10_later_arguments_ignored (scriptDir : String)
    (argv₁ argv₂ : List String) (outcome : ChildOutcome)
    (h : argv₁[2]? = argv₂[2]?) :
    runInstaller scriptDir argv₁ outcome = runInstaller scriptDir argv₂ outcome := by
  unfold runInstaller
  rw [h]

/-- Witness for C10 at two invocations agreeing on `button` but differing in
trailing arguments. -/
theorem c10_later_arguments_ignored_witness :
    runInstaller "/repo/scripts"
        ["node", "script", "button", "--force", "extra"]
        (ChildOutcome.exited 0) =
      runInstaller "/repo/scripts" ["node", "script", "button"]
        (ChildOutcome.exited 0) :=
  c10_later_arguments_ignored "/repo/scripts"
    ["node", "script", "button", "--force", "extra"]
    ["node", "script", "button"] (ChildOutcome.exited 0) (by decide)

end Installer
